import Mathlib

/-!
Shallow embedding of the GitHub_Actions CI helper scripts
(`check_jobs_complete.py`, `get_production_config.py`,
`run_testing_jobs.py`, `copy_test_data.py`).

The scripts wrap the DNAnexus platform SDK (`dxpy`).  The platform is
modelled as an explicit environment: each remote call that the embedded
code performs becomes a function argument (for example the outcome of a
blocking `wait_on_done` call on a reference is an `Option String`, with
`none` for success and `some msg` for a raised `DXJobFailureError` that
carries message `msg`).  Thread-pool nondeterminism (`as_completed`
yielding futures in arbitrary order) is modelled by quantifying over a
completion order that is a permutation of the submitted items.
-/

deriving instance DecidableEq for Except

namespace GithubActions

/-- Embedding of Python `str.startswith`: character-list prefix test. -/
def pyStartsWith (s p : String) : Bool :=
  p.data.isPrefixOf s.data

/-- The one platform fault kind the scripts catch and re-raise:
`dx.exceptions.DXJobFailureError`. -/
inductive DXError where
  | DXJobFailureError (msg : String)
  deriving DecidableEq, Repr

/-- The two kinds of remote execution reference, selecting which SDK
class is used (`dx.DXJob` vs `dx.DXAnalysis`). -/
inductive RefKind where
  | job
  | analysis
  deriving DecidableEq, Repr

/-- Embeds the branch condition of `DXManage.wait_on_done`
(`check_jobs_complete.py`): `if job.startswith('job-')` selects the
`dx.DXJob(...).wait_on_done()` path, anything else the
`dx.DXAnalysis(...).wait_on_done()` path. -/
def waitKind (job : String) : RefKind :=
  if pyStartsWith job "job-" then RefKind.job else RefKind.analysis

/-- Embeds the branch condition of the inner `terminate_one` of
`DXManage.terminate` (`run_testing_jobs.py`): `if job.startswith('job')`
selects `dx.DXJob(dxid=job).terminate()`, anything else
`dx.DXAnalysis(dxid=job).terminate()`. -/
def terminateKind (job : String) : RefKind :=
  if pyStartsWith job "job" then RefKind.job else RefKind.analysis

/-- The remote outcomes of the blocking SDK waits: `waitResult r = none`
means `wait_on_done()` on reference `r` returns normally, `some msg`
means it raises `DXJobFailureError(msg)`. -/
structure WaitEnv where
  waitResult : String → Option String

/-- One iteration of the loop body of `DXManage.wait_on_done`
(`check_jobs_complete.py`, lines 154-175): dispatch on the `job-` prefix,
call the blocking wait, and on a `DXJobFailureError` re-raise a new
`DXJobFailureError` naming the failing reference and embedding the
original message. -/
def waitOne (env : WaitEnv) (job : String) : Except DXError Unit :=
  match waitKind job with
  | RefKind.job =>
      match env.waitResult job with
      | none => Except.ok ()
      | some err =>
          Except.error (DXError.DXJobFailureError
            ("Job " ++ job ++ " failed:\n\n" ++ err))
  | RefKind.analysis =>
      match env.waitResult job with
      | none => Except.ok ()
      | some err =>
          Except.error (DXError.DXJobFailureError
            ("Analysis with ID " ++ job ++ " failed:\n\n" ++ err))

/-- `DXManage.wait_on_done(all_job_ids)`: wait on each reference in input
order, stopping at the first failure.  Alongside the `Except` outcome we
return the trace of references on which a blocking wait was actually
invoked, in order, so that "was waited on" is observable. -/
def wait_on_done (env : WaitEnv) : List String → List String × Except DXError Unit
  | [] => ([], Except.ok ())
  | job :: rest =>
    match waitOne env job with
    | Except.ok _ =>
        let r := wait_on_done env rest
        (job :: r.1, r.2)
    | Except.error e => ([job], Except.error e)

/-- A wait environment where exactly reference `job-B` fails. -/
def envFailB : WaitEnv :=
  ⟨fun r => if r = "job-B" then some "boom" else none⟩

/-- A wait environment where every reference fails with message `kaput`. -/
def envFailAll : WaitEnv :=
  ⟨fun _ => some "kaput"⟩

/-- Does `sub` occur as a contiguous run inside `l`? -/
def listIsInfixOf (sub : List Char) : List Char → Bool
  | [] => sub.isEmpty
  | c :: rest => sub.isPrefixOf (c :: rest) || listIsInfixOf sub rest

/-- Embedding of Python `'sub' in s`: character-list infix test. -/
def pyContains (s sub : String) : Bool :=
  listIsInfixOf sub.data s.data

/-! ## Version ordering (`get_production_config.py`)

`filter_highest_batch_config` compares `version` fields with
`packaging.version.Version`.  For the plain dotted-numeric version
strings these configs carry, `Version` parses the dot-separated numeric
release components and compares them as integer tuples after stripping
trailing zeros. -/

/-- Split a character list on a separator character, like Python
`str.split(sep)` (always at least one part; empty parts kept). -/
def splitOnChar (sep : Char) : List Char → List (List Char)
  | [] => [[]]
  | c :: rest =>
      match splitOnChar sep rest with
      | [] => if c = sep then [[], [c]] else [[c]]
      | h :: t => if c = sep then [] :: h :: t else (c :: h) :: t

/-- Embedding of Python `s.split(sep)` for a one-character separator. -/
def pySplit (s : String) (sep : Char) : List String :=
  (splitOnChar sep s.data).map (fun l => ⟨l⟩)

/-- Python `int(...)` on a string of decimal digits. -/
def charsToNat (l : List Char) : Nat :=
  l.foldl (fun acc c => acc * 10 + (c.toNat - 48)) 0

/-- Parse a dotted numeric version string into its release components,
as `packaging.version.Version` does for plain `X.Y.Z` strings. -/
def parseRelease (s : String) : List Nat :=
  (pySplit s '.').map (fun p => charsToNat p.data)

/-- Strip trailing zero components, mirroring the comparison key of
`packaging.version.Version` (so `1.0` and `1.0.0` compare equal). -/
def stripTrailingZeros (l : List Nat) : List Nat :=
  (l.reverse.dropWhile (fun n => n == 0)).reverse

/-- The comparison key of a version string. -/
def verKey (s : String) : List Nat :=
  stripTrailingZeros (parseRelease s)

/-- Lexicographic strict order on integer tuples (shorter tuple with a
common prefix is smaller), as used by tuple comparison in Python. -/
def listLexLt : List Nat → List Nat → Bool
  | _, [] => false
  | [], _ :: _ => true
  | a :: as, b :: bs =>
      if a < b then true
      else if a = b then listLexLt as bs
      else false

/-- `Version(x) < Version(y)` for dotted numeric version strings. -/
def vLt (x y : String) : Bool :=
  listLexLt (verKey x) (verKey y)

/-! ## `DXManage.filter_highest_batch_config` (`get_production_config.py`) -/

/-- One config file found at the config path, together with the content
fields the script reads out of it (`dx.DXFile(...).read()` parsed as
JSON): the `assay` and `version` fields. -/
structure ConfigFile where
  id : String
  name : String
  archivalState : String
  assay : String
  version : String
  deriving DecidableEq, Repr

/-- `highest_config.get('version', '0')`: the version of the running
highest config, defaulting to `'0'` while `highest_config` is empty. -/
def currentHighestVersion : Option ConfigFile → String
  | none => "0"
  | some c => c.version

/-- The loop of `filter_highest_batch_config` (lines 218-247): skip
non-live files, skip files for a different assay, log each remaining
file's `(version, name, id)` into `config_version_files`, and replace
the running highest config when the file's version is strictly greater.
State: the running `highest_config` (`none` for the initial `{}`) and
the accumulated `(version, name, id)` log. -/
def fhLoop (assay : String) :
    List ConfigFile → Option ConfigFile → List (String × String × String) →
      Option ConfigFile × List (String × String × String)
  | [], hi, vf => (hi, vf)
  | f :: rest, hi, vf =>
      if f.archivalState ≠ "live" then fhLoop assay rest hi vf
      else if f.assay ≠ assay then fhLoop assay rest hi vf
      else
        let vf2 := vf ++ [(f.version, f.name, f.id)]
        if vLt (currentHighestVersion hi) f.version then
          fhLoop assay rest (some f) vf2
        else fhLoop assay rest hi vf2

/-- One step of the highest-config update, for reasoning about the loop
as a fold. -/
def hiStep (hi : Option ConfigFile) (f : ConfigFile) : Option ConfigFile :=
  if vLt (currentHighestVersion hi) f.version then some f else hi

/-- The config files the loop does not skip: live archival state and
matching assay, in input order. -/
def acceptedConfigs (assay : String) (files : List ConfigFile) : List ConfigFile :=
  files.filter (fun f => f.archivalState == "live" && f.assay == assay)

/-- Outcome of `filter_highest_batch_config`: the returned highest
config, the `AssertionError` for no config found, or the `RuntimeError`
for more than one file with the highest version (carrying the
`(name, id)` pairs listed in its message). -/
inductive ConfigResult where
  | ok (cfg : ConfigFile)
  | assertNoConfig (msg : String)
  | multipleHighest (msg : String) (files : List (String × String))
  deriving DecidableEq, Repr

/-- `DXManage.filter_highest_batch_config(config_files, assay)`
(`get_production_config.py`, lines 186-269). -/
def filter_highest_batch_config (config_path : String)
    (config_files : List ConfigFile) (assay : String) : ConfigResult :=
  let r := fhLoop assay config_files none []
  match r.1 with
  | none =>
      ConfigResult.assertNoConfig
        ("No config file was found for " ++ assay ++ " in " ++ config_path)
  | some h =>
      let ties := r.2.filter (fun t => t.1 == h.version)
      if ties.length > 1 then
        ConfigResult.multipleHighest
          ("Error: more than one file found for highest version of " ++
            assay ++ " configs")
          (ties.map (fun t => (t.2.1, t.2.2)))
      else ConfigResult.ok h

/-! ## Required singleton lookups -/

/-- A data object returned by `dx.find_data_objects` (`project` and
`id` fields). -/
structure FoundObject where
  project : String
  id : String
  deriving DecidableEq, Repr

/-- `DXManage.find_multiqc_report_in_proj(project_id)`
(`run_testing_jobs.py`, lines 440-481), as a function of the list the
platform query `name='*multiqc*html'` returned: assert exactly one
report, then format `project-id:file-id`. -/
def find_multiqc_report_in_proj (project_id : String)
    (multiqc_reports : List FoundObject) : Except String String :=
  match multiqc_reports with
  | [r] => Except.ok (r.project ++ ":" ++ r.id)
  | _ =>
      Except.error
        ("Error: No or multiple MultiQC report(s) found in project " ++
          project_id)

/-- `DXManage.find_qc_status_file_in_project(project_id)`
(`copy_test_data.py`, lines 350-390), as a function of the list the
platform regexp query returned: `None` for no match, the
`project:file` reference for one match, an `AssertionError` for more. -/
def find_qc_status_file_in_project (qc_status_file : List FoundObject) :
    Except String (Option String) :=
  match qc_status_file with
  | [] => Except.ok none
  | [f] => Except.ok (some (f.project ++ ":" ++ f.id))
  | _ => Except.error "Error: Multiple QC status file(s) found in project"

/-- The required QC-status lookup performed by `main` of
`copy_test_data.py` (lines 459-464) on the original 002 project: a
missing file is a fatal `AssertionError` there. -/
def required_qc_status_lookup (source_project_id : String)
    (found : List FoundObject) : Except String String :=
  match find_qc_status_file_in_project found with
  | Except.error e => Except.error e
  | Except.ok none =>
      Except.error
        ("Error: No QC status file found in original project " ++
          source_project_id)
  | Except.ok (some q) => Except.ok q

/-- `DXManage.get_cnv_calling_job_id` (`run_testing_jobs.py`, lines
168-220), as a function of the launched-jobs list from the original
batch job's output and of the platform's `dx.describe(job)['name']`
(`jobName`): keep `job-` prefixed references, assert some exist, keep
those whose name contains `GATKgCNV`, assert exactly one. -/
def get_cnv_calling_job_id (assay_job_id : String)
    (launched_list : List String) (jobName : String → String) :
    Except String String :=
  let launched_jobs := launched_list.filter (fun j => pyStartsWith j "job-")
  if launched_jobs.isEmpty then
    Except.error
      ("Error: No jobs were launched by eggd_dias_batch job " ++
        assay_job_id ++ " given")
  else
    let cnv_calling_jobs :=
      launched_jobs.filter (fun j => pyContains (jobName j) "GATKgCNV")
    match cnv_calling_jobs with
    | [c] => Except.ok c
    | _ =>
        Except.error
          ("Error: No or multiple CNV calling jobs launched by " ++
            "eggd_dias_batch job " ++ assay_job_id ++ " given")

/-! ## `DXManage.call_in_parallel` (`copy_test_data.py`, lines 55-91)

The thread pool submits `func` on every item; `as_completed` yields the
finished futures in an arbitrary order, modelled by quantifying over a
`completionOrder` that is a permutation of the submitted items.  Each
result is appended as it completes; the first exception encountered is
logged and re-raised to the caller. -/
def call_in_parallel {α β ε : Type} (op : α → Except ε β) :
    List α → Except ε (List β)
  | [] => Except.ok []
  | x :: rest =>
      match op x with
      | Except.ok r =>
          match call_in_parallel op rest with
          | Except.ok rs => Except.ok (r :: rs)
          | Except.error e => Except.error e
      | Except.error e => Except.error e

/-! ## Stale-execution cleanup (`run_testing_jobs.py`) -/

/-- One execution as returned by `dx.find_executions` with its
described `state`. -/
structure Execution where
  id : String
  state : String
  deriving DecidableEq, Repr

/-- The `end_states` list of `DXManage.find_non_terminal_jobs`
(`run_testing_jobs.py`, line 313). -/
def end_states : List String :=
  ["done", "terminated", "failed", "terminating", "partially_failed"]

/-- `DXManage.find_non_terminal_jobs(executions)` (`run_testing_jobs.py`,
lines 297-332): for a non-empty execution list, the ids of executions
whose state is not an end state; for an empty list, `[]`. -/
def find_non_terminal_jobs (executions : List Execution) : List String :=
  if executions.isEmpty then []
  else
    (executions.filter (fun e => !(end_states.contains e.state))).map
      Execution.id

/-- The remote outcomes of the per-reference `terminate()` calls: the
result of `dx.DXJob(dxid=j).terminate()` or
`dx.DXAnalysis(dxid=j).terminate()`, with an arbitrary exception
rendered as a `String`. -/
structure TerminateEnv where
  terminateResult : RefKind → String → Except String Unit

/-- The inner `terminate_one(job)` of `DXManage.terminate`
(`run_testing_jobs.py`, lines 344-349): dispatch on the `job` prefix to
the job-kind or analysis-kind terminate call. -/
def terminate_one (env : TerminateEnv) (job : String) : Except String Unit :=
  env.terminateResult (terminateKind job) job

/-- The `as_completed` loop of `DXManage.terminate` (lines 356-365):
each future's exception is caught and logged
(`Error terminating job <id>: <exc>`) and the loop continues; nothing
is re-raised.  Returns the references processed (in completion order)
and the error log lines. -/
def terminateLoop (env : TerminateEnv) :
    List String → List String × List String
  | [] => ([], [])
  | j :: rest =>
      let r := terminateLoop env rest
      match terminate_one env j with
      | Except.ok _ => (j :: r.1, r.2)
      | Except.error exc =>
          (j :: r.1, ("Error terminating job " ++ j ++ ": " ++ exc) :: r.2)

/-- `DXManage.terminate(jobs)`: futures are submitted for
`sorted(jobs, reverse=True)` and consumed in an arbitrary completion
order (a permutation of the submitted references); the function always
returns normally. -/
def terminate (env : TerminateEnv) (completionOrder : List String) :
    List String × List String :=
  terminateLoop env completionOrder

/-! ## `DXManage.prefix_folders_with_github_actions_folder`
(`copy_test_data.py`, lines 241-309) -/

/-- A file found by `dx.find_data_objects` in the Dias single path,
with its described `name` and `folder`. -/
structure DataFile where
  project : String
  id : String
  name : String
  folder : String
  deriving DecidableEq, Repr

/-- Filter the 002-project files down to those whose id already exists
in the test project, prefix each original folder path with the GitHub
Actions run folder by plain string concatenation, and return
`(file id, new folder)` pairs. -/
def prefix_folders_with_github_actions_folder
    (files_in_002_project : List DataFile) (existing_files : List String)
    (ga_folder_name : String) : List (String × String) :=
  let existing_file_details :=
    files_in_002_project.filter (fun f => existing_files.contains f.id)
  let modified_folders :=
    existing_file_details.map
      (fun f => { f with folder := ga_folder_name ++ f.folder })
  modified_folders.map (fun f => (f.id, f.folder))

/-! ## `DXManage.update_inputs_to_batch_job` (`run_testing_jobs.py`,
lines 483-541) and the CNV-job choice in `main` (lines 622-625) -/

/-- A value of the loosely typed job input map: a JSON scalar, a
`$dnanexus_link` file-reference wrapper, or any other JSON value kept
opaque (`raw`). -/
inductive JVal where
  | s (v : String)
  | n (v : Int)
  | b (v : Bool)
  | link (id : String)
  | raw (tag : Nat)
  deriving DecidableEq, Repr

/-- Python `dict.get(k)` on an input map kept as an insertion-ordered
association list: the value at the first occurrence of `k`. -/
def pyDictGet : List (String × JVal) → String → Option JVal
  | [], _ => none
  | p :: ps, k => if p.1 = k then some p.2 else pyDictGet ps k

/-- Python `k in d` on the association list. -/
def pyDictHasKey : List (String × JVal) → String → Bool
  | [], _ => false
  | p :: ps, k => if p.1 = k then true else pyDictHasKey ps k

/-- Python `d[k] = v`: overwrite in place when the key exists, append
otherwise. -/
def pyDictSet (m : List (String × JVal)) (k : String) (v : JVal) :
    List (String × JVal) :=
  if pyDictHasKey m k then
    m.map (fun p => if p.1 = k then (k, v) else p)
  else m ++ [(k, v)]

/-- Python f-string rendering of the `single_output_dir` input value:
a missing key renders as `None`, strings render as themselves, other
scalars via `str()`.  (The scripts only ever hold a string here; the
theorems are stated for that case.) -/
def pyFStr : Option JVal → String
  | none => "None"
  | some (JVal.s v) => v
  | some (JVal.n v) => toString v
  | some (JVal.b true) => "True"
  | some (JVal.b false) => "False"
  | some (JVal.link i) => i
  | some (JVal.raw t) => toString t

/-- `DXManage.update_inputs_to_batch_job(updated_config_id,
multiqc_report, cnv_job_id)`: the original job's input map and
executable name (from `dx.describe`) are passed in; the script prefixes
`single_output_dir` with the run folder name, replaces
`assay_config_file` and `multiqc_report` with links, sets
`sample_limit`, and, only when a CNV job id was supplied, sets
`cnv_call_job_id` and `cnv_call = False`.  The tuple unpacking of
`multiqc_report.split(':')` requires exactly two parts. -/
def update_inputs_to_batch_job (folder_name : String)
    (test_sample_limit : Int) (job_inputs0 : List (String × JVal))
    (app_name : String) (updated_config_id : String)
    (multiqc_report : String) (cnv_job_id : Option String) :
    Except String (String × List (String × JVal)) :=
  let original_single_path := pyFStr (pyDictGet job_inputs0 "single_output_dir")
  match pySplit multiqc_report ':' with
  | [_, multi_file_id] =>
      let j1 := pyDictSet job_inputs0 "single_output_dir"
        (JVal.s (folder_name ++ original_single_path))
      let j2 := pyDictSet j1 "assay_config_file" (JVal.link updated_config_id)
      let j3 := pyDictSet j2 "multiqc_report" (JVal.link multi_file_id)
      let j4 := pyDictSet j3 "sample_limit" (JVal.n test_sample_limit)
      match cnv_job_id with
      | some cid =>
          let j5 := pyDictSet j4 "cnv_call_job_id" (JVal.s cid)
          let j6 := pyDictSet j5 "cnv_call" (JVal.b false)
          Except.ok (app_name, j6)
      | none => Except.ok (app_name, j4)
  | _ => Except.error "ValueError: not enough values to unpack"

/-- The CNV-job-id choice in `main` of `run_testing_jobs.py` (lines
622-625): look up the original CNV calling job exactly when the assay
is `CEN` and CNV calling was not requested, otherwise pass `None`. -/
def mainCnvChoice (assay : String) (run_cnv_calling : Bool)
    (assay_job_id : String) (launched_list : List String)
    (jobName : String → String) : Except String (Option String) :=
  if assay == "CEN" && !run_cnv_calling then
    match get_cnv_calling_job_id assay_job_id launched_list jobName with
    | Except.ok c => Except.ok (some c)
    | Except.error e => Except.error e
  else Except.ok none

/-- Items for the C7 witness scenario. -/
def cipItems : List (String × String) :=
  [("file-xx", "folder-1"), ("file-yy", "folder-2"), ("file-zz", "folder-3")]

/-- A completion order distinct from the submission order. -/
def cipOrder : List (String × String) :=
  [("file-yy", "folder-2"), ("file-zz", "folder-3"), ("file-xx", "folder-1")]

/-- An operation raising a platform fault on `file-zz` only. -/
def cipOpFailZ (it : String × String) : Except String String :=
  if it.1 = "file-zz" then Except.error "DXError: platform fault"
  else Except.ok it.1

/-- An operation that always succeeds. -/
def cipOpOk (it : String × String) : Except String String :=
  Except.ok it.1

/-- Termination outcomes for the C8 witness: terminating `job-2` raises,
everything else succeeds. -/
def envTermFail2 : TerminateEnv :=
  ⟨fun _ j => if j = "job-2" then Except.error "boom" else Except.ok ()⟩

/-- Config files for the C3 ok-case witness: four live TWE configs with
versions 1.0.0, 1.0.10, 1.1.11, 1.2.1. -/
def cfgFour : List ConfigFile :=
  [⟨"file-1", "c1.json", "live", "TWE", "1.0.0"⟩,
   ⟨"file-2", "c2.json", "live", "TWE", "1.0.10"⟩,
   ⟨"file-3", "c3.json", "live", "TWE", "1.1.11"⟩,
   ⟨"file-4", "c4.json", "live", "TWE", "1.2.1"⟩]

/-- Config files for the C3 tie witness: two live CEN configs share the
highest version string 1.2.1. -/
def cfgTie : List ConfigFile :=
  [⟨"file-1", "c1.json", "live", "CEN", "1.2.1"⟩,
   ⟨"file-2", "c2.json", "live", "CEN", "1.2.1"⟩,
   ⟨"file-3", "c3.json", "live", "CEN", "1.0.0"⟩]

/-- Config files for the C6 witness: an archived config carries the
numerically greatest version. -/
def cfgArchived : List ConfigFile :=
  [⟨"file-1", "c1.json", "archived", "TWE", "9.9.9"⟩,
   ⟨"file-2", "c2.json", "live", "TWE", "1.0.0"⟩]

/-- Remote job names for the C4 witness: only `job-cnv` is a GATKgCNV
job. -/
def cnvName : String → String :=
  fun j => if j = "job-cnv" then "GATKgCNV cnv calling" else "eggd_artemis"

/-- Original batch-job inputs for the C10 witness. -/
def exInputs : List (String × JVal) :=
  [("assay", JVal.s "CEN"),
   ("single_output_dir", JVal.s "/output/CEN-X"),
   ("snv_reports", JVal.b true),
   ("cnv_call", JVal.b true)]

theorem wait_on_done_ok_cons (env : WaitEnv) (job : String) (rest : List String)
    (h : waitOne env job = Except.ok ()) :
    wait_on_done env (job :: rest) =
      (job :: (wait_on_done env rest).1, (wait_on_done env rest).2) := by
  simp [wait_on_done, h]

theorem wait_on_done_error_cons (env : WaitEnv) (job : String) (rest : List String)
    (e : DXError) (h : waitOne env job = Except.error e) :
    wait_on_done env (job :: rest) = ([job], Except.error e) := by
  simp [wait_on_done, h]

/-- C1: the completion barrier waits on references sequentially in input
order; if the reference `b` at position `i` raises a job-failure fault
then every reference before position `i` was waited on successfully, the
call fails on `b`, and no reference after position `i` is ever waited on
(the trace of waited-on references is exactly `pre ++ [b]`). -/
theorem wait_on_done_order_of_failure (env : WaitEnv) (pre post : List String)
    (b : String) (e : DXError)
    (hpre : ∀ j ∈ pre, waitOne env j = Except.ok ())
    (hb : waitOne env b = Except.error e) :
    (wait_on_done env (pre ++ b :: post)).1 = pre ++ [b] ∧
    (wait_on_done env (pre ++ b :: post)).2 = Except.error e := by
  induction pre with
  | nil =>
      simp [wait_on_done_error_cons env b post e hb]
  | cons j rest ih =>
      have hj : waitOne env j = Except.ok () := hpre j (by simp)
      have hrest : ∀ x ∈ rest, waitOne env x = Except.ok () := by
        intro x hx
        exact hpre x (by simp [hx])
      have h := ih hrest
      rw [List.cons_append, wait_on_done_ok_cons env j (rest ++ b :: post) hj]
      exact ⟨by simp [h.1], h.2⟩

/-- C1 witness: for references `[job-A, job-B, job-C]` where `job-B`
fails, `job-A` is waited on, the call fails on `job-B`, and `job-C` is
never waited on. -/
theorem wait_on_done_order_of_failure_witness :
    (wait_on_done envFailB ["job-A", "job-B", "job-C"]).1 = ["job-A", "job-B"] ∧
    (wait_on_done envFailB ["job-A", "job-B", "job-C"]).2 =
      Except.error (DXError.DXJobFailureError "Job job-B failed:\n\nboom") := by
  have h := wait_on_done_order_of_failure envFailB ["job-A"] ["job-C"] "job-B"
    (DXError.DXJobFailureError "Job job-B failed:\n\nboom")
    (by
      intro j hj
      simp only [List.mem_singleton] at hj
      subst hj
      rfl)
    rfl
  exact ⟨h.1, h.2⟩

/-- C2: when the platform wait on reference `r` raises a
`DXJobFailureError` with message `err`, the barrier re-raises a fault of
the same kind (`DXJobFailureError`) whose message names `r` and embeds
`err`; the job-kind and analysis-kind paths differ only in the leading
message text, and the fault propagates immediately out of
`wait_on_done`. -/
theorem wait_on_done_reraise_same_kind (env : WaitEnv) (r err : String)
    (h : env.waitResult r = some err) :
    waitOne env r = Except.error (DXError.DXJobFailureError
      ((if pyStartsWith r "job-" then "Job " else "Analysis with ID ") ++
        r ++ " failed:\n\n" ++ err)) ∧
    ∀ post : List String,
      (wait_on_done env (r :: post)).2 = Except.error (DXError.DXJobFailureError
        ((if pyStartsWith r "job-" then "Job " else "Analysis with ID ") ++
          r ++ " failed:\n\n" ++ err)) := by
  have hone : waitOne env r = Except.error (DXError.DXJobFailureError
      ((if pyStartsWith r "job-" then "Job " else "Analysis with ID ") ++
        r ++ " failed:\n\n" ++ err)) := by
    by_cases hs : pyStartsWith r "job-" <;> simp [waitOne, waitKind, hs, h]
  refine ⟨hone, fun post => ?_⟩
  rw [wait_on_done_error_cons env r post _ hone]

/-- C2 witness: a failing job-kind reference and a failing analysis-kind
reference each produce a `DXJobFailureError` naming the reference and
embedding the original message, differing only in the message prefix. -/
theorem wait_on_done_reraise_same_kind_witness :
    waitOne envFailAll "job-X" = Except.error
      (DXError.DXJobFailureError "Job job-X failed:\n\nkaput") ∧
    waitOne envFailAll "analysis-Y" = Except.error
      (DXError.DXJobFailureError "Analysis with ID analysis-Y failed:\n\nkaput") := by
  have hj := (wait_on_done_reraise_same_kind envFailAll "job-X" "kaput" rfl).1
  have ha := (wait_on_done_reraise_same_kind envFailAll "analysis-Y" "kaput" rfl).1
  refine ⟨?_, ?_⟩
  · rw [hj]; decide
  · rw [ha]; decide

theorem pyStartsWith_job_of_jobDash (s : String)
    (h : pyStartsWith s "job-" = true) : pyStartsWith s "job" = true := by
  unfold pyStartsWith at h ⊢
  rw [List.isPrefixOf_iff_prefix] at h ⊢
  exact List.IsPrefix.trans (by decide) h

/-- C5 counterexample: the claim says both dispatches choose the
job-kind path exactly for the prefix `job-`, but the terminate dispatch
tests the prefix `job`: on the string `jobx` the terminate dispatch
chooses the job-kind path even though `jobx` does not start with
`job-`, and the two dispatches disagree. -/
theorem dispatch_prefix_counterexample :
    terminateKind "jobx" = RefKind.job ∧
    pyStartsWith "jobx" "job-" = false ∧
    waitKind "jobx" = RefKind.analysis ∧
    terminateKind "jobx" ≠ waitKind "jobx" := by
  decide

/-- C5 amended: the wait dispatch chooses the job-kind path exactly when
the reference starts with `job-`, while the terminate dispatch chooses
it exactly when the reference starts with `job`; both are pure functions
of the string's prefix and they agree on every string that starts with
`job-` as well as on every string that does not start with `job` (so on
all well-formed `job-`/`analysis-` references), but not on all
strings. -/
theorem reference_kind_dispatch (s : String) :
    (waitKind s = RefKind.job ↔ pyStartsWith s "job-" = true) ∧
    (terminateKind s = RefKind.job ↔ pyStartsWith s "job" = true) ∧
    (pyStartsWith s "job-" = true → terminateKind s = waitKind s) ∧
    (pyStartsWith s "job" = false → terminateKind s = waitKind s) := by
  refine ⟨?_, ?_, ?_, ?_⟩
  · unfold waitKind
    by_cases h : pyStartsWith s "job-" <;> simp [h]
  · unfold terminateKind
    by_cases h : pyStartsWith s "job" <;> simp [h]
  · intro h
    have h2 := pyStartsWith_job_of_jobDash s h
    simp [waitKind, terminateKind, h, h2]
  · intro h
    have h2 : pyStartsWith s "job-" = false := by
      by_contra hc
      rw [Bool.not_eq_false] at hc
      rw [pyStartsWith_job_of_jobDash s hc] at h
      cases h
    simp [waitKind, terminateKind, h, h2]

/-- C5 witness: on the job reference `job-123` and the analysis
reference `analysis-456` the amended dispatch facts hold concretely and
the two dispatches agree. -/
theorem reference_kind_dispatch_witness :
    waitKind "job-123" = RefKind.job ∧
    terminateKind "job-123" = waitKind "job-123" ∧
    waitKind "analysis-456" = RefKind.analysis ∧
    terminateKind "analysis-456" = waitKind "analysis-456" := by
  refine ⟨?_, ?_, ?_, ?_⟩
  · exact (reference_kind_dispatch "job-123").1.mpr (by decide)
  · exact (reference_kind_dispatch "job-123").2.2.1 (by decide)
  · decide
  · exact (reference_kind_dispatch "analysis-456").2.2.2 (by decide)

/-- C9: the destination path for an already-present file is the plain
string concatenation of the GitHub Actions run folder name and the
file's original folder path, with no slash normalization; concretely,
`/output/TWE-240802_1153/eggd_artemis/240802_1557` under run folder
`/GitHub_Actions_run-123` maps to
`/GitHub_Actions_run-123/output/TWE-240802_1153/eggd_artemis/240802_1557`. -/
theorem prefix_folders_is_plain_concatenation :
    (∀ (files : List DataFile) (existing : List String) (ga : String),
      prefix_folders_with_github_actions_folder files existing ga =
        (files.filter (fun f => existing.contains f.id)).map
          (fun f => (f.id, ga ++ f.folder))) ∧
    prefix_folders_with_github_actions_folder
      [⟨"project-A", "file-xx", "report.xlsx",
        "/output/TWE-240802_1153/eggd_artemis/240802_1557"⟩]
      ["file-xx"] "/GitHub_Actions_run-123" =
      [("file-xx",
        "/GitHub_Actions_run-123/output/TWE-240802_1153/eggd_artemis/240802_1557")] := by
  constructor
  · intro files existing ga
    unfold prefix_folders_with_github_actions_folder
    rw [List.map_map]
    rfl
  · decide

theorem listLexLt_irrefl (l : List Nat) : listLexLt l l = false := by
  induction l with
  | nil => rfl
  | cons a as ih => simp [listLexLt, ih]

theorem listLexLt_trans (a : List Nat) : ∀ (b c : List Nat),
    listLexLt a b = true → listLexLt b c = true → listLexLt a c = true := by
  induction a with
  | nil =>
      intro b c hab hbc
      cases c with
      | nil =>
          cases b with
          | nil => simpa using hab
          | cons y ys => simp [listLexLt] at hbc
      | cons z zs => simp [listLexLt]
  | cons x xs ih =>
      intro b c hab hbc
      cases b with
      | nil => simp [listLexLt] at hab
      | cons y ys =>
          cases c with
          | nil => simp [listLexLt] at hbc
          | cons z zs =>
              simp only [listLexLt] at hab hbc ⊢
              by_cases h1 : x < y
              · by_cases h2 : y < z
                · simp [Nat.lt_trans h1 h2]
                · simp only [h2, if_false] at hbc
                  by_cases h3 : y = z
                  · subst h3
                    simp [h1]
                  · simp [h3] at hbc
              · simp only [h1, if_false] at hab
                by_cases h4 : x = y
                · subst h4
                  simp only [if_pos rfl] at hab
                  by_cases h2 : x < z
                  · simp [h2]
                  · simp only [h2, if_false] at hbc ⊢
                    by_cases h5 : x = z
                    · subst h5
                      simp only [if_pos rfl] at hbc ⊢
                      exact ih ys zs hab hbc
                    · simp [h5] at hbc
                · simp [h4] at hab

theorem listLexLt_total (a : List Nat) : ∀ (b : List Nat),
    listLexLt a b = false → listLexLt b a = false → a = b := by
  induction a with
  | nil =>
      intro b hab _
      cases b with
      | nil => rfl
      | cons y ys => simp [listLexLt] at hab
  | cons x xs ih =>
      intro b hab hba
      cases b with
      | nil => simp [listLexLt] at hba
      | cons y ys =>
          simp only [listLexLt] at hab hba
          by_cases h1 : x < y
          · simp [h1] at hab
          · by_cases h2 : y < x
            · simp [h2] at hba
            · have hxy : x = y :=
                Nat.le_antisymm (Nat.not_lt.mp h2) (Nat.not_lt.mp h1)
              subst hxy
              simp only [h1, if_false, if_pos rfl] at hab hba
              rw [ih ys hab hba]

theorem call_in_parallel_all_ok {α β ε : Type} (op : α → Except ε β) :
    ∀ (order : List α), (∀ x ∈ order, (op x).isOk = true) →
      call_in_parallel op order =
        Except.ok (order.filterMap (fun x => (op x).toOption)) := by
  intro order
  induction order with
  | nil => intro _; rfl
  | cons x rest ih =>
      intro hok
      have hx := hok x (by simp)
      cases hcase : op x with
      | error e => rw [hcase] at hx; simp [Except.isOk, Except.toBool] at hx
      | ok r =>
          have hrest := ih (fun y hy => hok y (by simp [hy]))
          simp [call_in_parallel, hcase, hrest, List.filterMap_cons,
            Except.toOption]

theorem call_in_parallel_first_error {α β ε : Type} (op : α → Except ε β) :
    ∀ (order : List α), (∃ x ∈ order, ∃ e, op x = Except.error e) →
      ∃ y ∈ order, ∃ e2, op y = Except.error e2 ∧
        call_in_parallel op order = Except.error e2 := by
  intro order
  induction order with
  | nil => rintro ⟨x, hx, _⟩; cases hx
  | cons x rest ih =>
      rintro ⟨z, hz, e, hze⟩
      cases hcase : op x with
      | error ex =>
          exact ⟨x, by simp, ex, hcase, by simp [call_in_parallel, hcase]⟩
      | ok r =>
          have hzrest : z ∈ rest := by
            rcases List.mem_cons.mp hz with rfl | h
            · rw [hcase] at hze; cases hze
            · exact h
          rcases ih ⟨z, hzrest, e, hze⟩ with ⟨y, hy, e2, hye, hcall⟩
          exact ⟨y, by simp [hy], e2, hye,
            by simp [call_in_parallel, hcase, hcall]⟩

/-- C7: the pooled-execution helper, run over any completion order of
the submitted items: if every unit succeeds it returns the list of all
units' results in completion order; if at least one unit's operation
raises, the call raises a failing unit's own exception to the caller
(fail-fast, no silent swallowing). -/
theorem call_in_parallel_contract {α β ε : Type}
    (op : α → Except ε β) (items order : List α)
    (hperm : order.Perm items) :
    ((∀ x ∈ items, (op x).isOk = true) →
      call_in_parallel op order =
        Except.ok (order.filterMap (fun x => (op x).toOption))) ∧
    (∀ x ∈ items, ∀ e, op x = Except.error e →
      ∃ y ∈ items, ∃ e2, op y = Except.error e2 ∧
        call_in_parallel op order = Except.error e2) := by
  constructor
  · intro hok
    exact call_in_parallel_all_ok op order
      (fun x hx => hok x (hperm.mem_iff.mp hx))
  · intro x hx e hxe
    rcases call_in_parallel_first_error op order
        ⟨x, hperm.mem_iff.mpr hx, e, hxe⟩ with ⟨y, hy, e2, hye, hcall⟩
    exact ⟨y, hperm.mem_iff.mp hy, e2, hye, hcall⟩

/-- C7 witness: with the third item raising a platform fault, the call
raises that same fault; with no failures, the call returns all results
in completion order. -/
theorem call_in_parallel_contract_witness :
    (∃ y ∈ cipItems, ∃ e2, cipOpFailZ y = Except.error e2 ∧
      call_in_parallel cipOpFailZ cipOrder = Except.error e2) ∧
    call_in_parallel cipOpOk cipOrder =
      Except.ok ["file-yy", "file-zz", "file-xx"] := by
  constructor
  · exact (call_in_parallel_contract cipOpFailZ cipItems cipOrder
      (by decide)).2 ("file-zz", "folder-3") (by decide)
      "DXError: platform fault" (by decide)
  · have h := (call_in_parallel_contract cipOpOk cipItems cipOrder
      (by decide)).1 (by decide)
    exact h.trans (by decide)

theorem terminateLoop_fst (env : TerminateEnv) :
    ∀ (order : List String), (terminateLoop env order).1 = order := by
  intro order
  induction order with
  | nil => rfl
  | cons j rest ih =>
      cases hcase : terminate_one env j with
      | ok u => cases u; simp [terminateLoop, hcase, ih]
      | error exc => simp [terminateLoop, hcase, ih]

theorem terminateLoop_snd (env : TerminateEnv) :
    ∀ (order : List String), (terminateLoop env order).2 =
      order.filterMap (fun j =>
        match terminate_one env j with
        | Except.ok _ => none
        | Except.error exc =>
            some ("Error terminating job " ++ j ++ ": " ++ exc)) := by
  intro order
  induction order with
  | nil => rfl
  | cons j rest ih =>
      cases hcase : terminate_one env j with
      | ok u =>
          cases u
          simp [terminateLoop, hcase, ih, List.filterMap_cons]
      | error exc => simp [terminateLoop, hcase, ih, List.filterMap_cons]

/-- C8: the stale-execution cleanup selects exactly the executions whose
state is not one of `done`, `terminated`, `failed`, `terminating`,
`partially_failed` (so an empty execution list selects nothing), and the
bulk terminate never propagates an individual termination error: every
submitted reference is processed regardless of completion order, each
failing call contributes one log line, and the operation returns its
pair of results normally. -/
theorem stale_execution_cleanup :
    (∀ (executions : List Execution) (i : String),
      i ∈ find_non_terminal_jobs executions ↔
        ∃ e ∈ executions, e.id = i ∧ end_states.contains e.state = false) ∧
    (∀ (env : TerminateEnv) (jobs order : List String), order.Perm jobs →
      (terminate env order).1.Perm jobs ∧
      (terminate env order).2 = order.filterMap (fun j =>
        match terminate_one env j with
        | Except.ok _ => none
        | Except.error exc =>
            some ("Error terminating job " ++ j ++ ": " ++ exc))) := by
  constructor
  · intro executions i
    cases executions with
    | nil => simp [find_non_terminal_jobs]
    | cons e es =>
        simp only [find_non_terminal_jobs, List.isEmpty_cons, if_false,
          Bool.false_eq_true, List.mem_map, List.mem_filter]
        constructor
        · rintro ⟨f, ⟨hf, hstate⟩, rfl⟩
          exact ⟨f, hf, rfl, by simpa using hstate⟩
        · rintro ⟨f, hf, rfl, hstate⟩
          exact ⟨f, ⟨hf, by simpa using hstate⟩, rfl⟩
  · intro env jobs order hperm
    refine ⟨?_, terminateLoop_snd env order⟩
    rw [show (terminate env order).1 = order from terminateLoop_fst env order]
    exact hperm

/-- C8 witness: a running job is selected for termination while done and
terminated ones are not, and a failing termination is logged while the
other termination still proceeds and the call returns normally. -/
theorem stale_execution_cleanup_witness :
    "job-1" ∈ find_non_terminal_jobs
      [⟨"job-1", "running"⟩, ⟨"job-2", "done"⟩, ⟨"job-3", "terminated"⟩] ∧
    (terminate envTermFail2 ["job-2", "job-1"]).1.Perm ["job-1", "job-2"] ∧
    (terminate envTermFail2 ["job-2", "job-1"]).2 =
      ["Error terminating job job-2: boom"] := by
  refine ⟨?_, ?_, ?_⟩
  · exact (stale_execution_cleanup.1
      [⟨"job-1", "running"⟩, ⟨"job-2", "done"⟩, ⟨"job-3", "terminated"⟩]
      "job-1").mpr ⟨⟨"job-1", "running"⟩, by decide, rfl, by decide⟩
  · exact ((stale_execution_cleanup.2 envTermFail2 ["job-1", "job-2"]
      ["job-2", "job-1"]) (by decide)).1
  · have h := ((stale_execution_cleanup.2 envTermFail2 ["job-1", "job-2"]
      ["job-2", "job-1"]) (by decide)).2
    exact h.trans (by decide)

theorem fhLoop_cons_skip_state (assay : String) (f : ConfigFile)
    (fs : List ConfigFile) (hi : Option ConfigFile)
    (vf : List (String × String × String))
    (h : ¬ f.archivalState = "live") :
    fhLoop assay (f :: fs) hi vf = fhLoop assay fs hi vf := by
  simp [fhLoop, h]

theorem fhLoop_cons_skip_assay (assay : String) (f : ConfigFile)
    (fs : List ConfigFile) (hi : Option ConfigFile)
    (vf : List (String × String × String))
    (hl : f.archivalState = "live") (h : ¬ f.assay = assay) :
    fhLoop assay (f :: fs) hi vf = fhLoop assay fs hi vf := by
  simp [fhLoop, hl, h]

theorem fhLoop_cons_accept (assay : String) (f : ConfigFile)
    (fs : List ConfigFile) (hi : Option ConfigFile)
    (vf : List (String × String × String))
    (hl : f.archivalState = "live") (ha : f.assay = assay) :
    fhLoop assay (f :: fs) hi vf =
      fhLoop assay fs (hiStep hi f) (vf ++ [(f.version, f.name, f.id)]) := by
  simp only [fhLoop, hl, ha, hiStep]
  by_cases hv : vLt (currentHighestVersion hi) f.version <;> simp [hv]

theorem acceptedConfigs_cons_accept (assay : String) (f : ConfigFile)
    (fs : List ConfigFile) (hl : f.archivalState = "live")
    (ha : f.assay = assay) :
    acceptedConfigs assay (f :: fs) = f :: acceptedConfigs assay fs := by
  simp [acceptedConfigs, hl, ha]

theorem acceptedConfigs_cons_skip_state (assay : String) (f : ConfigFile)
    (fs : List ConfigFile) (h : ¬ f.archivalState = "live") :
    acceptedConfigs assay (f :: fs) = acceptedConfigs assay fs := by
  simp [acceptedConfigs, h]

theorem acceptedConfigs_cons_skip_assay (assay : String) (f : ConfigFile)
    (fs : List ConfigFile) (h : ¬ f.assay = assay) :
    acceptedConfigs assay (f :: fs) = acceptedConfigs assay fs := by
  simp [acceptedConfigs, h]

theorem mem_acceptedConfigs (assay : String) (f : ConfigFile)
    (files : List ConfigFile) :
    f ∈ acceptedConfigs assay files ↔
      f ∈ files ∧ f.archivalState = "live" ∧ f.assay = assay := by
  simp [acceptedConfigs, List.mem_filter, and_assoc]

/-- The loop of `filter_highest_batch_config` is the fold of `hiStep`
over the accepted files, with the `(version, name, id)` log collecting
exactly the accepted files in order. -/
theorem fhLoop_eq (assay : String) :
    ∀ (files : List ConfigFile) (hi : Option ConfigFile)
      (vf : List (String × String × String)),
      fhLoop assay files hi vf =
        ((acceptedConfigs assay files).foldl hiStep hi,
         vf ++ (acceptedConfigs assay files).map
           (fun f => (f.version, f.name, f.id))) := by
  intro files
  induction files with
  | nil => intro hi vf; simp [fhLoop, acceptedConfigs]
  | cons f fs ih =>
      intro hi vf
      by_cases hl : f.archivalState = "live"
      · by_cases ha : f.assay = assay
        · rw [fhLoop_cons_accept assay f fs hi vf hl ha,
            acceptedConfigs_cons_accept assay f fs hl ha, ih]
          simp
        · rw [fhLoop_cons_skip_assay assay f fs hi vf hl ha,
            acceptedConfigs_cons_skip_assay assay f fs ha, ih]
      · rw [fhLoop_cons_skip_state assay f fs hi vf hl,
          acceptedConfigs_cons_skip_state assay f fs hl, ih]

theorem foldl_hiStep_mem : ∀ (l : List ConfigFile) (hi : Option ConfigFile),
    l.foldl hiStep hi = hi ∨ ∃ f ∈ l, l.foldl hiStep hi = some f := by
  intro l
  induction l with
  | nil => intro hi; exact Or.inl rfl
  | cons f fs ih =>
      intro hi
      rw [List.foldl_cons]
      by_cases hv : vLt (currentHighestVersion hi) f.version
      · have hstep : hiStep hi f = some f := by simp [hiStep, hv]
        rw [hstep]
        rcases ih (some f) with h | ⟨g, hg, hfold⟩
        · exact Or.inr ⟨f, by simp, h⟩
        · exact Or.inr ⟨g, by simp [hg], hfold⟩
      · have hstep : hiStep hi f = hi := by simp [hiStep, hv]
        rw [hstep]
        rcases ih hi with h | ⟨g, hg, hfold⟩
        · exact Or.inl h
        · exact Or.inr ⟨g, by simp [hg], hfold⟩

/-- The fold result never ranks strictly below its start value nor below
any element folded over. -/
theorem foldl_hiStep_greatest :
    ∀ (l : List ConfigFile) (hi : Option ConfigFile),
      listLexLt (verKey (currentHighestVersion (l.foldl hiStep hi)))
        (verKey (currentHighestVersion hi)) = false ∧
      ∀ f ∈ l, listLexLt (verKey (currentHighestVersion (l.foldl hiStep hi)))
        (verKey f.version) = false := by
  intro l
  induction l with
  | nil => intro hi; exact ⟨listLexLt_irrefl _, by simp⟩
  | cons f fs ih =>
      intro hi
      rw [List.foldl_cons]
      by_cases hv : vLt (currentHighestVersion hi) f.version
      · have hstep : hiStep hi f = some f := by simp [hiStep, hv]
        rw [hstep]
        rcases ih (some f) with ⟨ha', hb'⟩
        have hfinal_f : listLexLt
            (verKey (currentHighestVersion (fs.foldl hiStep (some f))))
            (verKey f.version) = false := by
          simpa [currentHighestVersion] using ha'
        constructor
        · by_contra hc
          rw [Bool.not_eq_false] at hc
          have htr := listLexLt_trans _ _ _ hc (by simpa [vLt] using hv)
          rw [htr] at hfinal_f
          cases hfinal_f
        · intro g hg
          rcases List.mem_cons.mp hg with rfl | hg'
          · exact hfinal_f
          · exact hb' g hg'
      · have hstep : hiStep hi f = hi := by simp [hiStep, hv]
        rw [hstep]
        rcases ih hi with ⟨ha', hb'⟩
        have hnot : listLexLt (verKey (currentHighestVersion hi))
            (verKey f.version) = false := by
          simpa [vLt] using hv
        refine ⟨ha', ?_⟩
        intro g hg
        rcases List.mem_cons.mp hg with rfl | hg'
        · by_contra hc
          rw [Bool.not_eq_false] at hc
          by_cases he : listLexLt (verKey g.version)
              (verKey (currentHighestVersion hi)) = true
          · have htr := listLexLt_trans _ _ _ hc he
            rw [htr] at ha'
            cases ha'
          · have he2 : listLexLt (verKey g.version)
                (verKey (currentHighestVersion hi)) = false :=
              Bool.eq_false_iff.mpr he
            have heq := listLexLt_total _ _ hnot he2
            rw [← heq] at hc
            rw [hc] at ha'
            cases ha'
        · exact hb' g hg'

/-- `filter_highest_batch_config` in terms of the accepted files: the
running highest is the fold of `hiStep`, and the tie check counts the
accepted files sharing the highest version string. -/
theorem filter_highest_eq (config_path : String) (files : List ConfigFile)
    (assay : String) :
    filter_highest_batch_config config_path files assay =
      (match (acceptedConfigs assay files).foldl hiStep none with
       | none => ConfigResult.assertNoConfig
           ("No config file was found for " ++ assay ++ " in " ++ config_path)
       | some h =>
           if ((acceptedConfigs assay files).filter
                (fun f => f.version == h.version)).length > 1 then
             ConfigResult.multipleHighest
               ("Error: more than one file found for highest version of " ++
                 assay ++ " configs")
               (((acceptedConfigs assay files).filter
                  (fun f => f.version == h.version)).map
                 (fun f => (f.name, f.id)))
           else ConfigResult.ok h) := by
  unfold filter_highest_batch_config
  rw [fhLoop_eq]
  cases hfold : (acceptedConfigs assay files).foldl hiStep none with
  | none => simp
  | some h =>
      simp only [List.nil_append]
      rw [List.filter_map]
      simp [List.length_map, List.map_map, Function.comp_def]

theorem verKey_zero : verKey "0" = [] := by decide

theorem filter_highest_eq_none (config_path : String)
    (files : List ConfigFile) (assay : String)
    (hfold : (acceptedConfigs assay files).foldl hiStep none = none) :
    filter_highest_batch_config config_path files assay =
      ConfigResult.assertNoConfig
        ("No config file was found for " ++ assay ++ " in " ++ config_path) := by
  rw [filter_highest_eq, hfold]

theorem filter_highest_eq_some (config_path : String)
    (files : List ConfigFile) (assay : String) (g : ConfigFile)
    (hfold : (acceptedConfigs assay files).foldl hiStep none = some g) :
    filter_highest_batch_config config_path files assay =
      (if ((acceptedConfigs assay files).filter
            (fun f => f.version == g.version)).length > 1 then
        ConfigResult.multipleHighest
          ("Error: more than one file found for highest version of " ++
            assay ++ " configs")
          (((acceptedConfigs assay files).filter
              (fun f => f.version == g.version)).map (fun f => (f.name, f.id)))
      else ConfigResult.ok g) := by
  rw [filter_highest_eq, hfold]

theorem filter_highest_ok_spec (config_path : String)
    (files : List ConfigFile) (assay : String) (h : ConfigFile)
    (hok : filter_highest_batch_config config_path files assay =
      ConfigResult.ok h) :
    h ∈ files ∧ h.archivalState = "live" ∧ h.assay = assay ∧
    ∀ f ∈ files, f.archivalState = "live" → f.assay = assay →
      vLt h.version f.version = false := by
  cases hfold : (acceptedConfigs assay files).foldl hiStep none with
  | none =>
      rw [filter_highest_eq_none config_path files assay hfold] at hok
      cases hok
  | some g =>
      rw [filter_highest_eq_some config_path files assay g hfold] at hok
      by_cases ht : ((acceptedConfigs assay files).filter
          (fun f => f.version == g.version)).length > 1
      · rw [if_pos ht] at hok; cases hok
      · rw [if_neg ht] at hok
        have hgh : g = h := by cases hok; rfl
        subst hgh
        have hmem : g ∈ acceptedConfigs assay files := by
          rcases foldl_hiStep_mem (acceptedConfigs assay files) none with
            hn | ⟨f, hf, hsome⟩
          · rw [hn] at hfold; cases hfold
          · rw [hsome] at hfold
            cases hfold
            exact hf
        have hdec := (mem_acceptedConfigs assay g files).mp hmem
        refine ⟨hdec.1, hdec.2.1, hdec.2.2, ?_⟩
        intro f hf hfl hfa
        have hfacc : f ∈ acceptedConfigs assay files :=
          (mem_acceptedConfigs assay f files).mpr ⟨hf, hfl, hfa⟩
        have := (foldl_hiStep_greatest (acceptedConfigs assay files) none).2
          f hfacc
        rw [hfold] at this
        simpa [vLt, currentHighestVersion] using this

theorem filter_highest_none_spec (config_path : String)
    (files : List ConfigFile) (assay : String)
    (hacc : acceptedConfigs assay files = []) :
    filter_highest_batch_config config_path files assay =
      ConfigResult.assertNoConfig
        ("No config file was found for " ++ assay ++ " in " ++ config_path) := by
  rw [filter_highest_eq, hacc]
  rfl

theorem filter_highest_tie_spec (config_path : String)
    (files : List ConfigFile) (assay : String) (v : String)
    (hpos : listLexLt [] (verKey v) = true)
    (hcount : 2 ≤ (acceptedConfigs assay files).countP
      (fun f => f.version == v))
    (htop : ∀ f ∈ acceptedConfigs assay files,
      vLt f.version v = false → f.version = v) :
    filter_highest_batch_config config_path files assay =
      ConfigResult.multipleHighest
        ("Error: more than one file found for highest version of " ++
          assay ++ " configs")
        (((acceptedConfigs assay files).filter
            (fun f => f.version == v)).map (fun f => (f.name, f.id))) := by
  have hex : ∃ f0 ∈ acceptedConfigs assay files, f0.version = v := by
    have hpos2 : 0 < (acceptedConfigs assay files).countP
        (fun f => f.version == v) := lt_of_lt_of_le (by norm_num) hcount
    rcases List.countP_pos_iff.mp hpos2 with ⟨f0, hf0, hp⟩
    exact ⟨f0, hf0, by simpa using hp⟩
  rcases hex with ⟨f0, hf0, hf0v⟩
  cases hfold : (acceptedConfigs assay files).foldl hiStep none with
  | none =>
      exfalso
      have := (foldl_hiStep_greatest (acceptedConfigs assay files) none).2
        f0 hf0
      rw [hfold] at this
      simp only [currentHighestVersion, verKey_zero] at this
      rw [hf0v, hpos] at this
      cases this
  | some g =>
      have hggr := (foldl_hiStep_greatest (acceptedConfigs assay files) none).2
      have hgmem : g ∈ acceptedConfigs assay files := by
        rcases foldl_hiStep_mem (acceptedConfigs assay files) none with
          hn | ⟨f, hf, hsome⟩
        · rw [hn] at hfold; cases hfold
        · rw [hsome] at hfold; cases hfold; exact hf
      have hgf0 := hggr f0 hf0
      rw [hfold] at hgf0
      simp only [currentHighestVersion] at hgf0
      have hgv : g.version = v := by
        apply htop g hgmem
        rw [hf0v] at hgf0
        simpa [vLt] using hgf0
      have hlen : 1 < ((acceptedConfigs assay files).filter
          (fun f => f.version == v)).length := by
        have hc := List.countP_eq_length_filter
          (fun f : ConfigFile => f.version == v) (acceptedConfigs assay files)
        omega
      rw [filter_highest_eq_some config_path files assay g hfold, hgv,
        if_pos hlen]

/-- C3: a returned highest config is a live, assay-matching input file
whose version is greatest under semantic-version ordering among all
live, assay-matching files; and when two or more live files for the
assay carry the identical (positive) highest version string, the call
instead raises the more-than-one-file fault listing the names and ids
of exactly the files carrying that version. -/
theorem highest_config_selection :
    (∀ (config_path : String) (files : List ConfigFile) (assay : String)
      (h : ConfigFile),
      filter_highest_batch_config config_path files assay =
        ConfigResult.ok h →
        h ∈ files ∧ h.archivalState = "live" ∧ h.assay = assay ∧
        ∀ f ∈ files, f.archivalState = "live" → f.assay = assay →
          vLt h.version f.version = false) ∧
    (∀ (config_path : String) (files : List ConfigFile) (assay v : String),
      listLexLt [] (verKey v) = true →
      2 ≤ (acceptedConfigs assay files).countP (fun f => f.version == v) →
      (∀ f ∈ acceptedConfigs assay files,
        vLt f.version v = false → f.version = v) →
      filter_highest_batch_config config_path files assay =
        ConfigResult.multipleHighest
          ("Error: more than one file found for highest version of " ++
            assay ++ " configs")
          (((acceptedConfigs assay files).filter
              (fun f => f.version == v)).map (fun f => (f.name, f.id)))) :=
  ⟨filter_highest_ok_spec, filter_highest_tie_spec⟩

/-- C3 witness: among the live TWE versions 1.0.0, 1.0.10, 1.1.11,
1.2.1 the highest selected is 1.2.1 and it dominates the others under
semantic-version ordering (1.0.10 ranks above 1.0.2 even though string
order would rank it lower); and two live CEN files carrying the
identical highest version 1.2.1 produce the more-than-one-file fault
listing both names/ids. -/
theorem highest_config_selection_witness :
    (filter_highest_batch_config "project-X:/configs" cfgFour "TWE" =
      ConfigResult.ok ⟨"file-4", "c4.json", "live", "TWE", "1.2.1"⟩) ∧
    (∀ f ∈ cfgFour, f.archivalState = "live" → f.assay = "TWE" →
      vLt "1.2.1" f.version = false) ∧
    vLt "1.0.2" "1.0.10" = true ∧
    listLexLt ("1.0.10".data.map Char.toNat)
      ("1.0.2".data.map Char.toNat) = true ∧
    filter_highest_batch_config "project-X:/configs" cfgTie "CEN" =
      ConfigResult.multipleHighest
        "Error: more than one file found for highest version of CEN configs"
        [("c1.json", "file-1"), ("c2.json", "file-2")] := by
  refine ⟨by decide, ?_, by decide, by decide, ?_⟩
  · have h := (highest_config_selection.1 "project-X:/configs" cfgFour "TWE"
      ⟨"file-4", "c4.json", "live", "TWE", "1.2.1"⟩ (by decide)).2.2.2
    simpa using h
  · have h := highest_config_selection.2 "project-X:/configs" cfgTie "CEN"
      "1.2.1" (by decide) (by decide) (by decide)
    exact h.trans (by decide)

theorem acceptedConfigs_filter_live (assay : String)
    (files : List ConfigFile) :
    acceptedConfigs assay
        (files.filter (fun f => f.archivalState == "live")) =
      acceptedConfigs assay files := by
  induction files with
  | nil => rfl
  | cons f fs ih =>
      by_cases hl : f.archivalState = "live"
      · rw [show (f :: fs).filter (fun f => f.archivalState == "live") =
            f :: fs.filter (fun f => f.archivalState == "live") from by
          simp [hl]]
        by_cases ha : f.assay = assay
        · rw [acceptedConfigs_cons_accept assay f _ hl ha,
            acceptedConfigs_cons_accept assay f fs hl ha, ih]
        · rw [acceptedConfigs_cons_skip_assay assay f _ ha,
            acceptedConfigs_cons_skip_assay assay f fs ha, ih]
      · rw [show (f :: fs).filter (fun f => f.archivalState == "live") =
            fs.filter (fun f => f.archivalState == "live") from by
          simp [hl]]
        rw [ih, acceptedConfigs_cons_skip_state assay f fs hl]

theorem filter_highest_congr (config_path assay : String)
    (l1 l2 : List ConfigFile)
    (hacc : acceptedConfigs assay l1 = acceptedConfigs assay l2) :
    filter_highest_batch_config config_path l1 assay =
      filter_highest_batch_config config_path l2 assay := by
  rw [filter_highest_eq, filter_highest_eq, hacc]

/-- C6: config files whose archival state is not `live` never influence
the version comparison (removing them changes nothing) and are never
returned as the highest config, even when their version is greatest;
the returned highest config always has archival state `live`. -/
theorem archival_state_filtering :
    (∀ (config_path : String) (files : List ConfigFile) (assay : String),
      filter_highest_batch_config config_path files assay =
        filter_highest_batch_config config_path
          (files.filter (fun f => f.archivalState == "live")) assay) ∧
    (∀ (config_path : String) (files : List ConfigFile) (assay : String)
      (h : ConfigFile),
      filter_highest_batch_config config_path files assay =
        ConfigResult.ok h → h.archivalState = "live") ∧
    (∀ (config_path : String) (files : List ConfigFile) (assay : String)
      (f : ConfigFile), f ∈ files → ¬ f.archivalState = "live" →
      filter_highest_batch_config config_path files assay ≠
        ConfigResult.ok f) := by
  refine ⟨?_, ?_, ?_⟩
  · intro config_path files assay
    exact (filter_highest_congr config_path assay _ _
      (acceptedConfigs_filter_live assay files)).symm
  · intro config_path files assay h hok
    exact (filter_highest_ok_spec config_path files assay h hok).2.1
  · intro config_path files assay f _ hstate hok
    exact hstate (filter_highest_ok_spec config_path files assay f hok).2.1

/-- C6 witness: with an archived config at version 9.9.9 and a live one
at 1.0.0, the live 1.0.0 config is selected, its archival state is
`live`, and the archived 9.9.9 config is not returned. -/
theorem archival_state_filtering_witness :
    filter_highest_batch_config "project-X:/configs" cfgArchived "TWE" =
      filter_highest_batch_config "project-X:/configs"
        (cfgArchived.filter (fun f => f.archivalState == "live")) "TWE" ∧
    filter_highest_batch_config "project-X:/configs" cfgArchived "TWE" =
      ConfigResult.ok ⟨"file-2", "c2.json", "live", "TWE", "1.0.0"⟩ ∧
    (⟨"file-2", "c2.json", "live", "TWE", "1.0.0"⟩ :
      ConfigFile).archivalState = "live" ∧
    filter_highest_batch_config "project-X:/configs" cfgArchived "TWE" ≠
      ConfigResult.ok ⟨"file-1", "c1.json", "archived", "TWE", "9.9.9"⟩ := by
  refine ⟨archival_state_filtering.1 "project-X:/configs" cfgArchived "TWE",
    by decide, ?_, ?_⟩
  · exact archival_state_filtering.2.1 "project-X:/configs" cfgArchived "TWE"
      ⟨"file-2", "c2.json", "live", "TWE", "1.0.0"⟩ (by decide)
  · exact archival_state_filtering.2.2 "project-X:/configs" cfgArchived "TWE"
      ⟨"file-1", "c1.json", "archived", "TWE", "9.9.9"⟩ (by decide) (by decide)

theorem filter_highest_singleton (config_path : String)
    (files : List ConfigFile) (assay : String) (f : ConfigFile)
    (hacc : acceptedConfigs assay files = [f])
    (hpos : listLexLt [] (verKey f.version) = true) :
    filter_highest_batch_config config_path files assay =
      ConfigResult.ok f := by
  have hfold : (acceptedConfigs assay files).foldl hiStep none = some f := by
    rw [hacc]
    simp [hiStep, vLt, verKey_zero, currentHighestVersion, hpos]
  rw [filter_highest_eq_some config_path files assay f hfold, hacc]
  simp

/-- C4: each required singleton lookup (MultiQC report, QC status file,
CNV calling job, highest config) fails on zero matches with a message
announcing nothing was found, fails on two or more matches with a
message announcing multiples were found (for the highest-config lookup
the matches are the live assay files carrying the highest version, and
the failure is the more-than-one-file fault listing them), and on
exactly one match deterministically returns that match's reference. -/
theorem exactly_one_invariant :
    (∀ (pid : String) (reports : List FoundObject),
      (reports = [] → find_multiqc_report_in_proj pid reports =
        Except.error
          ("Error: No or multiple MultiQC report(s) found in project " ++
            pid)) ∧
      (2 ≤ reports.length → find_multiqc_report_in_proj pid reports =
        Except.error
          ("Error: No or multiple MultiQC report(s) found in project " ++
            pid)) ∧
      (∀ r, reports = [r] → find_multiqc_report_in_proj pid reports =
        Except.ok (r.project ++ ":" ++ r.id))) ∧
    (∀ (spid : String) (found : List FoundObject),
      (found = [] → required_qc_status_lookup spid found =
        Except.error
          ("Error: No QC status file found in original project " ++ spid)) ∧
      (2 ≤ found.length → required_qc_status_lookup spid found =
        Except.error "Error: Multiple QC status file(s) found in project") ∧
      (∀ f, found = [f] → required_qc_status_lookup spid found =
        Except.ok (f.project ++ ":" ++ f.id))) ∧
    (∀ (jid : String) (launched : List String) (jobName : String → String),
      (launched.filter (fun j => pyStartsWith j "job-") = [] →
        get_cnv_calling_job_id jid launched jobName = Except.error
          ("Error: No jobs were launched by eggd_dias_batch job " ++
            jid ++ " given")) ∧
      (launched.filter (fun j => pyStartsWith j "job-") ≠ [] →
        (launched.filter (fun j => pyStartsWith j "job-")).filter
          (fun j => pyContains (jobName j) "GATKgCNV") = [] →
        get_cnv_calling_job_id jid launched jobName = Except.error
          ("Error: No or multiple CNV calling jobs launched by " ++
            "eggd_dias_batch job " ++ jid ++ " given")) ∧
      (launched.filter (fun j => pyStartsWith j "job-") ≠ [] →
        2 ≤ ((launched.filter (fun j => pyStartsWith j "job-")).filter
          (fun j => pyContains (jobName j) "GATKgCNV")).length →
        get_cnv_calling_job_id jid launched jobName = Except.error
          ("Error: No or multiple CNV calling jobs launched by " ++
            "eggd_dias_batch job " ++ jid ++ " given")) ∧
      (∀ c, (launched.filter (fun j => pyStartsWith j "job-")).filter
          (fun j => pyContains (jobName j) "GATKgCNV") = [c] →
        get_cnv_calling_job_id jid launched jobName = Except.ok c)) ∧
    (∀ (config_path : String) (files : List ConfigFile) (assay : String),
      (acceptedConfigs assay files = [] →
        filter_highest_batch_config config_path files assay =
          ConfigResult.assertNoConfig
            ("No config file was found for " ++ assay ++ " in " ++
              config_path)) ∧
      (∀ f, acceptedConfigs assay files = [f] →
        listLexLt [] (verKey f.version) = true →
        filter_highest_batch_config config_path files assay =
          ConfigResult.ok f) ∧
      (∀ v, listLexLt [] (verKey v) = true →
        2 ≤ (acceptedConfigs assay files).countP (fun f => f.version == v) →
        (∀ f ∈ acceptedConfigs assay files,
          vLt f.version v = false → f.version = v) →
        filter_highest_batch_config config_path files assay =
          ConfigResult.multipleHighest
            ("Error: more than one file found for highest version of " ++
              assay ++ " configs")
            (((acceptedConfigs assay files).filter
                (fun f => f.version == v)).map (fun f => (f.name, f.id))))) := by
  refine ⟨?_, ?_, ?_, ?_⟩
  · intro pid reports
    refine ⟨?_, ?_, ?_⟩
    · rintro rfl; rfl
    · intro h2
      match reports with
      | [] => simp at h2
      | [a] => simp at h2
      | a :: b :: t => rfl
    · rintro r rfl; rfl
  · intro spid found
    refine ⟨?_, ?_, ?_⟩
    · rintro rfl; rfl
    · intro h2
      match found with
      | [] => simp at h2
      | [a] => simp at h2
      | a :: b :: t => rfl
    · rintro f rfl; rfl
  · intro jid launched jobName
    refine ⟨?_, ?_, ?_, ?_⟩
    · intro hl
      simp [get_cnv_calling_job_id, hl]
    · intro hnl hm
      have hne : (launched.filter (fun j => pyStartsWith j "job-")).isEmpty =
          false := by
        rw [Bool.eq_false_iff]
        intro hI
        exact hnl (List.isEmpty_iff.mp hI)
      simp [get_cnv_calling_job_id, hne, hm]
    · intro hnl h2
      have hne : (launched.filter (fun j => pyStartsWith j "job-")).isEmpty =
          false := by
        rw [Bool.eq_false_iff]
        intro hI
        exact hnl (List.isEmpty_iff.mp hI)
      match hmv : (launched.filter (fun j => pyStartsWith j "job-")).filter
          (fun j => pyContains (jobName j) "GATKgCNV") with
      | [] => rw [hmv] at h2; simp at h2
      | [c] => rw [hmv] at h2; simp at h2
      | c :: d :: t =>
          simp [get_cnv_calling_job_id, hne, hmv]
    · intro c hm
      have hcmem : c ∈ launched.filter (fun j => pyStartsWith j "job-") :=
        List.mem_of_mem_filter (by rw [hm]; simp)
      have hne : (launched.filter (fun j => pyStartsWith j "job-")).isEmpty =
          false := by
        rw [Bool.eq_false_iff]
        intro hI
        rw [List.isEmpty_iff.mp hI] at hcmem
        cases hcmem
      simp [get_cnv_calling_job_id, hne, hm]
  · intro config_path files assay
    exact ⟨filter_highest_none_spec config_path files assay,
      fun f hacc hpos =>
        filter_highest_singleton config_path files assay f hacc hpos,
      fun v hpos hcount htop =>
        filter_highest_tie_spec config_path files assay v hpos hcount htop⟩

/-- C4 witness: each lookup exercised at zero, one, and multiple
matches on concrete inputs. -/
theorem exactly_one_invariant_witness :
    find_multiqc_report_in_proj "project-P" [] = Except.error
      "Error: No or multiple MultiQC report(s) found in project project-P" ∧
    find_multiqc_report_in_proj "project-P"
      [⟨"project-P", "file-m1"⟩, ⟨"project-P", "file-m2"⟩] = Except.error
      "Error: No or multiple MultiQC report(s) found in project project-P" ∧
    find_multiqc_report_in_proj "project-P" [⟨"project-P", "file-m"⟩] =
      Except.ok "project-P:file-m" ∧
    required_qc_status_lookup "project-Q" [] = Except.error
      "Error: No QC status file found in original project project-Q" ∧
    required_qc_status_lookup "project-Q"
      [⟨"project-Q", "file-q1"⟩, ⟨"project-Q", "file-q2"⟩] = Except.error
      "Error: Multiple QC status file(s) found in project" ∧
    required_qc_status_lookup "project-Q" [⟨"project-Q", "file-q"⟩] =
      Except.ok "project-Q:file-q" ∧
    get_cnv_calling_job_id "job-batch" ["analysis-1"] cnvName =
      Except.error
        "Error: No jobs were launched by eggd_dias_batch job job-batch given" ∧
    get_cnv_calling_job_id "job-batch" ["analysis-1", "job-cnv", "job-x"]
      cnvName = Except.ok "job-cnv" ∧
    filter_highest_batch_config "project-X:/configs" [] "TWE" =
      ConfigResult.assertNoConfig
        "No config file was found for TWE in project-X:/configs" ∧
    filter_highest_batch_config "project-X:/configs" cfgArchived "TWE" =
      ConfigResult.ok ⟨"file-2", "c2.json", "live", "TWE", "1.0.0"⟩ ∧
    filter_highest_batch_config "project-X:/configs" cfgTie "CEN" =
      ConfigResult.multipleHighest
        "Error: more than one file found for highest version of CEN configs"
        [("c1.json", "file-1"), ("c2.json", "file-2")] := by
  refine ⟨?_, ?_, ?_, ?_, ?_, ?_, ?_, ?_, ?_, ?_, ?_⟩
  · exact ((exactly_one_invariant.1 "project-P" []).1 rfl).trans (by decide)
  · exact ((exactly_one_invariant.1 "project-P"
      [⟨"project-P", "file-m1"⟩, ⟨"project-P", "file-m2"⟩]).2.1
        (by decide)).trans (by decide)
  · exact ((exactly_one_invariant.1 "project-P"
      [⟨"project-P", "file-m"⟩]).2.2 ⟨"project-P", "file-m"⟩ rfl).trans
        (by decide)
  · exact ((exactly_one_invariant.2.1 "project-Q" []).1 rfl).trans (by decide)
  · exact ((exactly_one_invariant.2.1 "project-Q"
      [⟨"project-Q", "file-q1"⟩, ⟨"project-Q", "file-q2"⟩]).2.1
        (by decide)).trans (by decide)
  · exact ((exactly_one_invariant.2.1 "project-Q"
      [⟨"project-Q", "file-q"⟩]).2.2 ⟨"project-Q", "file-q"⟩ rfl).trans
        (by decide)
  · exact ((exactly_one_invariant.2.2.1 "job-batch" ["analysis-1"]
      cnvName).1 (by decide)).trans (by decide)
  · exact ((exactly_one_invariant.2.2.1 "job-batch"
      ["analysis-1", "job-cnv", "job-x"] cnvName).2.2.2 "job-cnv"
        (by decide)).trans (by decide)
  · exact ((exactly_one_invariant.2.2.2 "project-X:/configs" [] "TWE").1
      rfl).trans (by decide)
  · exact ((exactly_one_invariant.2.2.2 "project-X:/configs" cfgArchived
      "TWE").2.1 ⟨"file-2", "c2.json", "live", "TWE", "1.0.0"⟩ (by decide)
        (by decide)).trans (by decide)
  · exact ((exactly_one_invariant.2.2.2 "project-X:/configs" cfgTie
      "CEN").2.2 "1.2.1" (by decide) (by decide) (by decide)).trans
        (by decide)

theorem pyDictGet_map_replace_ne (k k2 : String) (v : JVal)
    (h : ¬ k2 = k) :
    ∀ (m : List (String × JVal)),
      pyDictGet (m.map (fun q => if q.1 = k then (k, v) else q)) k2 =
        pyDictGet m k2 := by
  have hk2 : ¬ k = k2 := fun he => h he.symm
  intro m
  induction m with
  | nil => rfl
  | cons q ps ih =>
      by_cases hq : q.1 = k
      · have hq2 : ¬ q.1 = k2 := by rw [hq]; exact hk2
        simp [pyDictGet, hq, hk2, hq2, ih]
      · by_cases hq2 : q.1 = k2 <;> simp [pyDictGet, hq, hq2, h, ih]

theorem pyDictGet_append_single_ne (k k2 : String) (v : JVal)
    (h : ¬ k2 = k) :
    ∀ (m : List (String × JVal)),
      pyDictGet (m ++ [(k, v)]) k2 = pyDictGet m k2 := by
  have hk2 : ¬ k = k2 := fun he => h he.symm
  intro m
  induction m with
  | nil => simp [pyDictGet, hk2]
  | cons q ps ih =>
      by_cases hq : q.1 = k2 <;> simp [pyDictGet, hq, ih]

theorem pyDictSet_cons_ne (p : String × JVal) (m : List (String × JVal))
    (k : String) (v : JVal) (h : ¬ p.1 = k) :
    pyDictSet (p :: m) k v = p :: pyDictSet m k v := by
  have hkeycons : pyDictHasKey (p :: m) k = pyDictHasKey m k := by
    simp [pyDictHasKey, h]
  unfold pyDictSet
  rw [hkeycons]
  by_cases hkey : pyDictHasKey m k = true
  · rw [if_pos hkey, if_pos hkey, List.map_cons, if_neg h]
  · rw [if_neg hkey, if_neg hkey, List.cons_append]

theorem pyDictGet_set_self (m : List (String × JVal)) (k : String)
    (v : JVal) : pyDictGet (pyDictSet m k v) k = some v := by
  induction m with
  | nil => simp [pyDictSet, pyDictHasKey, pyDictGet]
  | cons p ps ih =>
      by_cases hp : p.1 = k
      · have hkey : pyDictHasKey (p :: ps) k = true := by
          simp [pyDictHasKey, hp]
        simp [pyDictSet, hkey, pyDictGet, hp]
      · rw [pyDictSet_cons_ne p ps k v hp]
        simp [pyDictGet, hp, ih]

theorem pyDictGet_set_ne (m : List (String × JVal)) (k k2 : String)
    (v : JVal) (h : ¬ k2 = k) :
    pyDictGet (pyDictSet m k v) k2 = pyDictGet m k2 := by
  have hk2 : ¬ k = k2 := fun he => h he.symm
  induction m with
  | nil => simp [pyDictSet, pyDictHasKey, pyDictGet, hk2]
  | cons p ps ih =>
      by_cases hp : p.1 = k
      · have hkey : pyDictHasKey (p :: ps) k = true := by
          simp [pyDictHasKey, hp]
        have hp2 : ¬ p.1 = k2 := by rw [hp]; exact hk2
        simp [pyDictSet, hkey, pyDictGet, hp, hk2, hp2,
          pyDictGet_map_replace_ne k k2 v h ps]
      · rw [pyDictSet_cons_ne p ps k v hp]
        by_cases hp2 : p.1 = k2 <;> simp [pyDictGet, hp2, ih]

/-- C10: `update_inputs_to_batch_job` changes only `single_output_dir`
(prefixed with the run folder name), `assay_config_file`,
`multiqc_report` and `sample_limit`, plus `cnv_call_job_id` and
`cnv_call = False` exactly when a CNV job id is supplied; every other
key of the original input map passes through unchanged, and with no CNV
job id neither `cnv_call_job_id` nor `cnv_call` is touched.  A CNV job
id is supplied by `main` exactly when the assay is `CEN` and CNV
calling was not requested. -/
theorem update_inputs_frame_effect :
    (∀ (folder_name : String) (limit : Int)
      (job_inputs0 : List (String × JVal))
      (app_name updated_config_id multiqc_report : String)
      (cnv_job_id : Option String) (p m : String),
      pySplit multiqc_report ':' = [p, m] →
      ∃ out, update_inputs_to_batch_job folder_name limit job_inputs0
          app_name updated_config_id multiqc_report cnv_job_id =
          Except.ok (app_name, out) ∧
        (∀ k, ¬ k = "single_output_dir" → ¬ k = "assay_config_file" →
          ¬ k = "multiqc_report" → ¬ k = "sample_limit" →
          ¬ k = "cnv_call_job_id" → ¬ k = "cnv_call" →
          pyDictGet out k = pyDictGet job_inputs0 k) ∧
        pyDictGet out "single_output_dir" =
          some (JVal.s (folder_name ++
            pyFStr (pyDictGet job_inputs0 "single_output_dir"))) ∧
        pyDictGet out "assay_config_file" =
          some (JVal.link updated_config_id) ∧
        pyDictGet out "multiqc_report" = some (JVal.link m) ∧
        pyDictGet out "sample_limit" = some (JVal.n limit) ∧
        (∀ cid, cnv_job_id = some cid →
          pyDictGet out "cnv_call_job_id" = some (JVal.s cid) ∧
          pyDictGet out "cnv_call" = some (JVal.b false)) ∧
        (cnv_job_id = none →
          pyDictGet out "cnv_call_job_id" =
            pyDictGet job_inputs0 "cnv_call_job_id" ∧
          pyDictGet out "cnv_call" = pyDictGet job_inputs0 "cnv_call")) ∧
    (∀ (assay : String) (run : Bool) (jid : String)
      (launched : List String) (names : String → String) (c : String),
      mainCnvChoice assay run jid launched names = Except.ok (some c) →
        assay = "CEN" ∧ run = false ∧
        get_cnv_calling_job_id jid launched names = Except.ok c) ∧
    (∀ (assay : String) (run : Bool) (jid : String)
      (launched : List String) (names : String → String),
      (¬ assay = "CEN" ∨ run = true) →
      mainCnvChoice assay run jid launched names = Except.ok none) ∧
    (∀ (jid : String) (launched : List String) (names : String → String)
      (c : String),
      get_cnv_calling_job_id jid launched names = Except.ok c →
      mainCnvChoice "CEN" false jid launched names =
        Except.ok (some c)) := by
  refine ⟨?_, ?_, ?_, ?_⟩
  · intro folder_name limit job_inputs0 app_name updated_config_id
      multiqc_report cnv_job_id p m hsplit
    cases cnv_job_id with
    | none =>
        have heq : update_inputs_to_batch_job folder_name limit job_inputs0
            app_name updated_config_id multiqc_report none =
            Except.ok (app_name,
              pyDictSet (pyDictSet (pyDictSet (pyDictSet job_inputs0
                "single_output_dir" (JVal.s (folder_name ++
                  pyFStr (pyDictGet job_inputs0 "single_output_dir"))))
                "assay_config_file" (JVal.link updated_config_id))
                "multiqc_report" (JVal.link m))
                "sample_limit" (JVal.n limit)) := by
          unfold update_inputs_to_batch_job
          rw [hsplit]
        refine ⟨_, heq, ?_, ?_, ?_, ?_, ?_, ?_, ?_⟩
        · intro k h1 h2 h3 h4 _ _
          rw [pyDictGet_set_ne _ _ _ _ h4, pyDictGet_set_ne _ _ _ _ h3,
            pyDictGet_set_ne _ _ _ _ h2, pyDictGet_set_ne _ _ _ _ h1]
        · rw [pyDictGet_set_ne _ _ _ _ (by decide),
            pyDictGet_set_ne _ _ _ _ (by decide),
            pyDictGet_set_ne _ _ _ _ (by decide), pyDictGet_set_self]
        · rw [pyDictGet_set_ne _ _ _ _ (by decide),
            pyDictGet_set_ne _ _ _ _ (by decide), pyDictGet_set_self]
        · rw [pyDictGet_set_ne _ _ _ _ (by decide), pyDictGet_set_self]
        · rw [pyDictGet_set_self]
        · intro cid hc
          cases hc
        · intro _
          constructor
          · rw [pyDictGet_set_ne _ _ _ _ (by decide),
              pyDictGet_set_ne _ _ _ _ (by decide),
              pyDictGet_set_ne _ _ _ _ (by decide),
              pyDictGet_set_ne _ _ _ _ (by decide)]
          · rw [pyDictGet_set_ne _ _ _ _ (by decide),
              pyDictGet_set_ne _ _ _ _ (by decide),
              pyDictGet_set_ne _ _ _ _ (by decide),
              pyDictGet_set_ne _ _ _ _ (by decide)]
    | some cid =>
        have heq : update_inputs_to_batch_job folder_name limit job_inputs0
            app_name updated_config_id multiqc_report (some cid) =
            Except.ok (app_name,
              pyDictSet (pyDictSet (pyDictSet (pyDictSet (pyDictSet
                (pyDictSet job_inputs0
                "single_output_dir" (JVal.s (folder_name ++
                  pyFStr (pyDictGet job_inputs0 "single_output_dir"))))
                "assay_config_file" (JVal.link updated_config_id))
                "multiqc_report" (JVal.link m))
                "sample_limit" (JVal.n limit))
                "cnv_call_job_id" (JVal.s cid))
                "cnv_call" (JVal.b false)) := by
          unfold update_inputs_to_batch_job
          rw [hsplit]
        refine ⟨_, heq, ?_, ?_, ?_, ?_, ?_, ?_, ?_⟩
        · intro k h1 h2 h3 h4 h5 h6
          rw [pyDictGet_set_ne _ _ _ _ h6, pyDictGet_set_ne _ _ _ _ h5,
            pyDictGet_set_ne _ _ _ _ h4, pyDictGet_set_ne _ _ _ _ h3,
            pyDictGet_set_ne _ _ _ _ h2, pyDictGet_set_ne _ _ _ _ h1]
        · rw [pyDictGet_set_ne _ _ _ _ (by decide),
            pyDictGet_set_ne _ _ _ _ (by decide),
            pyDictGet_set_ne _ _ _ _ (by decide),
            pyDictGet_set_ne _ _ _ _ (by decide),
            pyDictGet_set_ne _ _ _ _ (by decide), pyDictGet_set_self]
        · rw [pyDictGet_set_ne _ _ _ _ (by decide),
            pyDictGet_set_ne _ _ _ _ (by decide),
            pyDictGet_set_ne _ _ _ _ (by decide),
            pyDictGet_set_ne _ _ _ _ (by decide), pyDictGet_set_self]
        · rw [pyDictGet_set_ne _ _ _ _ (by decide),
            pyDictGet_set_ne _ _ _ _ (by decide),
            pyDictGet_set_ne _ _ _ _ (by decide), pyDictGet_set_self]
        · rw [pyDictGet_set_ne _ _ _ _ (by decide),
            pyDictGet_set_ne _ _ _ _ (by decide), pyDictGet_set_self]
        · intro cid2 hc
          cases hc
          constructor
          · rw [pyDictGet_set_ne _ _ _ _ (by decide), pyDictGet_set_self]
          · rw [pyDictGet_set_self]
        · intro hc
          cases hc
  · intro assay run jid launched names c hok
    unfold mainCnvChoice at hok
    by_cases hcond : (assay == "CEN" && !run) = true
    · rw [if_pos hcond] at hok
      rcases Bool.and_eq_true_iff.mp hcond with ⟨hA, hR⟩
      refine ⟨by simpa using hA, by simpa using hR, ?_⟩
      cases hget : get_cnv_calling_job_id jid launched names with
      | ok c2 =>
          rw [hget] at hok
          cases hok
          rfl
      | error e =>
          rw [hget] at hok
          cases hok
    · rw [if_neg hcond] at hok
      cases hok
  · intro assay run jid launched names hyp
    have hcond : (assay == "CEN" && !run) = false := by
      rcases hyp with hA | hR
      · simp [hA]
      · simp [hR]
    unfold mainCnvChoice
    rw [if_neg (by simp [hcond])]
  · intro jid launched names c hget
    unfold mainCnvChoice
    rw [if_pos (by decide), hget]

/-- C10 witness: on a concrete CEN input map with a supplied CNV job id
the untouched key `assay` passes through, `single_output_dir` gets the
run-folder prefix, `cnv_call` becomes `False`; and the choice function
supplies no CNV job id for a TWE assay. -/
theorem update_inputs_frame_effect_witness :
    (∃ out, update_inputs_to_batch_job "/GitHub_Actions_run-1" 5 exInputs
        "eggd_dias_batch" "file-newcfg" "project-P:file-m"
        (some "job-cnv") = Except.ok ("eggd_dias_batch", out) ∧
      pyDictGet out "assay" = some (JVal.s "CEN") ∧
      pyDictGet out "single_output_dir" =
        some (JVal.s "/GitHub_Actions_run-1/output/CEN-X") ∧
      pyDictGet out "cnv_call_job_id" = some (JVal.s "job-cnv") ∧
      pyDictGet out "cnv_call" = some (JVal.b false)) ∧
    mainCnvChoice "TWE" false "job-batch" [] cnvName = Except.ok none := by
  constructor
  · rcases update_inputs_frame_effect.1 "/GitHub_Actions_run-1" 5 exInputs
        "eggd_dias_batch" "file-newcfg" "project-P:file-m" (some "job-cnv")
        "project-P" "file-m" (by decide) with
      ⟨out, heq, hframe, hsingle, _, _, _, hcnv, _⟩
    refine ⟨out, heq, ?_, ?_, ?_, ?_⟩
    · exact (hframe "assay" (by decide) (by decide) (by decide) (by decide)
        (by decide) (by decide)).trans (by decide)
    · exact hsingle.trans (by decide)
    · exact (hcnv "job-cnv" rfl).1
    · exact (hcnv "job-cnv" rfl).2
  · exact update_inputs_frame_effect.2.2.1 "TWE" false "job-batch" []
      cnvName (Or.inl (by decide))

end GithubActions
